import Mathlib

/-!
Shallow embedding of `src/main.py` (a FastAPI gateway around yt-dlp) and
proofs about its request-handling logic.

Time is modelled by `ℚ` (Python `time.time()` returns a real-valued clock).
Python dict lookups returning `None` for absent keys are modelled by
`Option`.  Python exceptions raised inside a `try:` block are modelled by
`Except PyExc`; FastAPI turning an uncaught `HTTPException` into an HTTP
response is modelled explicitly.
-/

namespace ApiApp

/-- `RATE_LIMIT = 5` from `main.py`. -/
def RATE_LIMIT : Nat := 5

/-- `RATE_WINDOW = 60` (seconds) from `main.py`. -/
def RATE_WINDOW : ℚ := 60

/-- Decision of the admission gate: admit, or reject with HTTP 429. -/
inductive RLDecision where
  | admitted
  | rejected429
deriving DecidableEq, Repr

/-- The pruning step of `rate_limit`:
`clients[ip] = [t for t in clients[ip] if now - t < RATE_WINDOW]`. -/
def pruneWindow (ts : List ℚ) (now : ℚ) : List ℚ :=
  ts.filter (fun t => decide (now - t < RATE_WINDOW))

/-- `rate_limit` from `main.py`, for a single identity: prune the stored
timestamps to the trailing window, reject with 429 if the pruned count is
`>= RATE_LIMIT` (leaving the stored list as the pruned list), otherwise
append `now` and admit.  Returns the decision and the new
stored timestamp list of the identity. -/
def rate_limit (ts : List ℚ) (now : ℚ) : RLDecision × List ℚ :=
  let pruned := pruneWindow ts now
  if RATE_LIMIT ≤ pruned.length then
    (RLDecision.rejected429, pruned)
  else
    (RLDecision.admitted, pruned ++ [now])

/-- One request from the identity: thread the stored list through
`rate_limit` and record the decision. -/
def rlStep (acc : List RLDecision × List ℚ) (now : ℚ) : List RLDecision × List ℚ :=
  (acc.1 ++ [(rate_limit acc.2 now).1], (rate_limit acc.2 now).2)

/-- A sequence of requests from one identity, starting from no stored
state (the entry of the identity is created as `[]` on first request). -/
def rate_limit_seq (times : List ℚ) : List RLDecision × List ℚ :=
  times.foldl rlStep ([], [])

lemma pruneWindow_eq_self (ts : List ℚ) (now : ℚ)
    (h : ∀ t ∈ ts, now - t < RATE_WINDOW) : pruneWindow ts now = ts :=
  List.filter_eq_self.mpr (fun a ha => decide_eq_true (h a ha))

lemma rate_limit_admit (ts : List ℚ) (now : ℚ)
    (hfilt : ∀ t ∈ ts, now - t < RATE_WINDOW) (hlen : ts.length < RATE_LIMIT) :
    rate_limit ts now = (RLDecision.admitted, ts ++ [now]) := by
  unfold rate_limit
  rw [pruneWindow_eq_self ts now hfilt]
  simp [Nat.not_le.mpr hlen]

lemma rate_limit_reject (ts : List ℚ) (now : ℚ)
    (hfilt : ∀ t ∈ ts, now - t < RATE_WINDOW) (hlen : RATE_LIMIT ≤ ts.length) :
    rate_limit ts now = (RLDecision.rejected429, ts) := by
  unfold rate_limit
  rw [pruneWindow_eq_self ts now hfilt]
  simp [hlen]

/-- C3: the admission gate first prunes the stored timestamps of the identity to
the trailing 60-second window; if the pruned count is `≥ 5` it rejects with
429 and the stored list is exactly the pruned list (nothing appended),
otherwise it appends `now` and admits; consequently 5 requests within one
window (from a fresh identity) are all admitted and the 6th within the same
window is rejected. -/
theorem rate_limit_contract_and_burst (ts : List ℚ) (now : ℚ)
    (t0 t1 t2 t3 t4 t5 : ℚ)
    (h01 : t0 ≤ t1) (h12 : t1 ≤ t2) (h23 : t2 ≤ t3) (h34 : t3 ≤ t4)
    (h45 : t4 ≤ t5) (hw : t5 - t0 < 60) :
    (RATE_LIMIT ≤ (pruneWindow ts now).length →
      rate_limit ts now = (RLDecision.rejected429, pruneWindow ts now)) ∧
    ((pruneWindow ts now).length < RATE_LIMIT →
      rate_limit ts now = (RLDecision.admitted, pruneWindow ts now ++ [now])) ∧
    rate_limit_seq [t0, t1, t2, t3, t4, t5] =
      ([RLDecision.admitted, RLDecision.admitted, RLDecision.admitted,
        RLDecision.admitted, RLDecision.admitted, RLDecision.rejected429],
       [t0, t1, t2, t3, t4]) := by
  refine ⟨?_, ?_, ?_⟩
  · intro h
    unfold rate_limit
    simp [h]
  · intro h
    unfold rate_limit
    simp [Nat.not_le.mpr h]
  · have hR : RATE_WINDOW = (60 : ℚ) := rfl
    have s1 : rate_limit [] t0 = (RLDecision.admitted, [t0]) := by
      apply rate_limit_admit <;> simp [RATE_LIMIT]
    have s2 : rate_limit [t0] t1 = (RLDecision.admitted, [t0, t1]) := by
      have := rate_limit_admit [t0] t1 (by
        intro t ht; rw [hR]; simp at ht; subst ht; linarith) (by simp [RATE_LIMIT])
      simpa using this
    have s3 : rate_limit [t0, t1] t2 = (RLDecision.admitted, [t0, t1, t2]) := by
      have := rate_limit_admit [t0, t1] t2 (by
        intro t ht; rw [hR]; simp at ht
        rcases ht with h | h <;> subst h <;> linarith) (by simp [RATE_LIMIT])
      simpa using this
    have s4 : rate_limit [t0, t1, t2] t3 = (RLDecision.admitted, [t0, t1, t2, t3]) := by
      have := rate_limit_admit [t0, t1, t2] t3 (by
        intro t ht; rw [hR]; simp at ht
        rcases ht with h | h | h <;> subst h <;> linarith) (by simp [RATE_LIMIT])
      simpa using this
    have s5 : rate_limit [t0, t1, t2, t3] t4 =
        (RLDecision.admitted, [t0, t1, t2, t3, t4]) := by
      have := rate_limit_admit [t0, t1, t2, t3] t4 (by
        intro t ht; rw [hR]; simp at ht
        rcases ht with h | h | h | h <;> subst h <;> linarith) (by simp [RATE_LIMIT])
      simpa using this
    have s6 : rate_limit [t0, t1, t2, t3, t4] t5 =
        (RLDecision.rejected429, [t0, t1, t2, t3, t4]) := by
      apply rate_limit_reject
      · intro t ht; rw [hR]; simp at ht
        rcases ht with h | h | h | h | h <;> subst h <;> linarith
      · simp [RATE_LIMIT]
    unfold rate_limit_seq
    simp only [List.foldl_cons, List.foldl_nil, rlStep, s1, s2, s3, s4, s5, s6]
    simp

/-- Witness for C3 at a concrete burst `0,1,2,3,4,5` seconds. -/
theorem rate_limit_contract_and_burst_witness :
    (RATE_LIMIT ≤ (pruneWindow [] 0).length →
      rate_limit [] 0 = (RLDecision.rejected429, pruneWindow [] 0)) ∧
    ((pruneWindow [] 0).length < RATE_LIMIT →
      rate_limit [] 0 = (RLDecision.admitted, pruneWindow [] 0 ++ [0])) ∧
    rate_limit_seq [(0 : ℚ), 1, 2, 3, 4, 5] =
      ([RLDecision.admitted, RLDecision.admitted, RLDecision.admitted,
        RLDecision.admitted, RLDecision.admitted, RLDecision.rejected429],
       [0, 1, 2, 3, 4]) :=
  rate_limit_contract_and_burst [] 0 0 1 2 3 4 5 (by norm_num) (by norm_num)
    (by norm_num) (by norm_num) (by norm_num) (by norm_num)

/-- C4: if every stored timestamp of a (previously rate-limited) identity
is at least 60 seconds old, a new request is admitted and the stored list
becomes just `[now]`; at the boundary, a timestamp exactly `now - 60` is
pruned as expired (it never survives the pruning step, so it cannot count
toward the limit). -/
theorem rate_limit_window_elapse (ts : List ℚ) (tlast now : ℚ)
    (hall : ∀ t ∈ ts, t ≤ tlast) (helapse : tlast + 60 ≤ now) :
    rate_limit ts now = (RLDecision.admitted, [now]) ∧
    (now - 60) ∉ pruneWindow ts now := by
  have hprune : pruneWindow ts now = [] := by
    unfold pruneWindow
    rw [List.filter_eq_nil_iff]
    intro t ht
    have h1 : t ≤ tlast := hall t ht
    have : ¬ (now - t < RATE_WINDOW) := by
      rw [show RATE_WINDOW = (60 : ℚ) from rfl]
      linarith
    simpa using this
  constructor
  · unfold rate_limit
    rw [hprune]
    simp [RATE_LIMIT]
  · intro hmem
    unfold pruneWindow at hmem
    have := List.of_mem_filter hmem
    rw [show RATE_WINDOW = (60 : ℚ) from rfl] at this
    simp at this

/-- Witness for C4: one stored timestamp at `t = 0`, new request at
`now = 60` (exactly the boundary): admitted, and `now - 60 = 0` is pruned. -/
theorem rate_limit_window_elapse_witness :
    rate_limit [(0 : ℚ)] 60 = (RLDecision.admitted, [60]) ∧
    ((60 : ℚ) - 60) ∉ pruneWindow [(0 : ℚ)] 60 :=
  rate_limit_window_elapse [(0 : ℚ)] 0 60 (by norm_num) (by norm_num)

/-- C10: the per-identity invariant — if the stored list has length ≤ 5
before a call of the admission gate, then after the call (admit or reject)
it still has length ≤ 5, and every stored timestamp is strictly newer than
`now - 60`. -/
theorem rate_limit_invariant (ts : List ℚ) (now : ℚ)
    (hlen : ts.length ≤ RATE_LIMIT) :
    (rate_limit ts now).2.length ≤ RATE_LIMIT ∧
    ∀ t ∈ (rate_limit ts now).2, now - 60 < t := by
  have hple : (pruneWindow ts now).length ≤ ts.length := List.length_filter_le _ _
  have hmem : ∀ t ∈ pruneWindow ts now, now - 60 < t := by
    intro t ht
    have := List.of_mem_filter ht
    rw [show RATE_WINDOW = (60 : ℚ) from rfl] at this
    simp at this
    linarith
  unfold rate_limit
  by_cases h : RATE_LIMIT ≤ (pruneWindow ts now).length
  · simp only [h, if_true]
    exact ⟨le_trans hple hlen, hmem⟩
  · simp only [h, if_false]
    constructor
    · have : (pruneWindow ts now).length < RATE_LIMIT := Nat.not_le.mp h
      simp only [List.length_append, List.length_singleton]
      omega
    · intro t ht
      rcases List.mem_append.mp ht with h1 | h1
      · exact hmem t h1
      · simp at h1
        subst h1
        linarith

/-- Witness for C10 at a full window of five stored timestamps. -/
theorem rate_limit_invariant_witness :
    (rate_limit [(0 : ℚ), 10, 20, 30, 40] 50).2.length ≤ RATE_LIMIT ∧
    ∀ t ∈ (rate_limit [(0 : ℚ), 10, 20, 30, 40] 50).2, (50 : ℚ) - 60 < t :=
  rate_limit_invariant [(0 : ℚ), 10, 20, 30, 40] 50 (by norm_num [RATE_LIMIT])

/-! ## Engine results and Python exceptions -/

/-- A Python exception live inside a `try:` block: either a
`fastapi.HTTPException` (status + detail) or any other exception coming
out of the yt-dlp engine (its message). -/
inductive PyExc where
  | httpExc (status : Nat) (detail : String)
  | engineExc (msg : String)
deriving DecidableEq, Repr

/-- `str(e)` for a caught exception.  The Starlette `HTTPException.__str__`
renders as `"<status>: <detail>"`; for a plain engine exception it is the
message itself. -/
def strOfExc : PyExc → String
  | PyExc.httpExc code d => toString code ++ ": " ++ d
  | PyExc.engineExc m => m

/-- One element of the engine `formats` list (only the keys the code
reads).  Absent dict keys are `none`. -/
structure FormatEntry where
  format_id : Option String
  ext : Option String
  height : Option Nat
deriving DecidableEq, Repr

/-- One member of the engine `entries` collection (only the keys the
code reads). -/
structure PlaylistEntry where
  id : Option String
  title : Option String
  thumbnail : Option String
  duration : Option Nat
  webpage_url : Option String
deriving DecidableEq, Repr

/-- The engine `extract_info` result dict, restricted to the keys the
code reads.  `entries = none` models the `entries` key being absent
(the resource is not a playlist); a `none` inside the entries list models
a null/unavailable member. -/
structure EngineInfo where
  title : Option String
  thumbnail : Option String
  duration : Option Nat
  uploader : Option String
  formats : List FormatEntry
  entries : Option (List (Option PlaylistEntry))
deriving DecidableEq, Repr

/-! ## `GET /info` (`video_info`) -/

/-- The success body of `/info`. -/
structure VideoInfoBody where
  title : Option String
  thumbnail : Option String
  duration : Option Nat
  uploader : Option String
  formats : List FormatEntry
deriving DecidableEq, Repr

/-- A `/info` response body: either the metadata dict or the
`{"error": <message>}` dict. -/
inductive InfoBody where
  | metadata (b : VideoInfoBody)
  | errorBody (msg : String)
deriving DecidableEq, Repr

/-- Python truthiness of `f.get("height")`: the key is present and the
value is nonzero. -/
def heightTruthy : Option Nat → Bool
  | some h => h ≠ 0
  | none => false

/-- `video_info` from `main.py`: the engine call either returns an info
dict (then the metadata body is built with the formats filtered to those
with a truthy `height`) or raises (then `{"error": str(e)}` is returned).
Both paths `return`, so FastAPI serves status 200 in both cases.  The
result is `(HTTP status, body)`. -/
def video_info (engine : Except String EngineInfo) : Nat × InfoBody :=
  match engine with
  | Except.ok info =>
      (200, InfoBody.metadata
        ⟨info.title, info.thumbnail, info.duration, info.uploader,
         info.formats.filter (fun f => heightTruthy f.height)⟩)
  | Except.error e => (200, InfoBody.errorBody e)

/-- C8: every `/info` response has HTTP status 200 — on engine success the
body is the metadata shape, and on engine failure the body is the
`{"error": <message>}` shape with the engine message; a failure is never
surfaced as a non-2xx status. -/
theorem video_info_always_200 (engine : Except String EngineInfo) :
    (video_info engine).1 = 200 ∧
    (∀ msg, engine = Except.error msg →
      (video_info engine).2 = InfoBody.errorBody msg) ∧
    (∀ info, engine = Except.ok info →
      (video_info engine).2 = InfoBody.metadata
        ⟨info.title, info.thumbnail, info.duration, info.uploader,
         info.formats.filter (fun f => heightTruthy f.height)⟩) := by
  refine ⟨?_, ?_, ?_⟩
  · cases engine <;> rfl
  · intro msg h; subst h; rfl
  · intro info h; subst h; rfl

/-- Witness for C8 at a concrete engine failure. -/
theorem video_info_always_200_witness :
    (video_info (Except.error ("boom"))).1 = 200 ∧
    (∀ msg, (Except.error ("boom") : Except String EngineInfo) = Except.error msg →
      (video_info (Except.error ("boom"))).2 = InfoBody.errorBody msg) ∧
    (∀ info, (Except.error ("boom") : Except String EngineInfo) = Except.ok info →
      (video_info (Except.error ("boom"))).2 = InfoBody.metadata
        ⟨info.title, info.thumbnail, info.duration, info.uploader,
         info.formats.filter (fun f => heightTruthy f.height)⟩) :=
  video_info_always_200 (Except.error ("boom"))

/-! ## `GET /playlist/info` (`playlist_info`) -/

/-- One element of the `videos` list of the response. -/
structure PlaylistVideo where
  id : Option String
  title : Option String
  thumbnail : Option String
  duration : Option Nat
  url : Option String
deriving DecidableEq, Repr

/-- The projection `videos.append({...})` applies to a non-null entry. -/
def project_entry (e : PlaylistEntry) : PlaylistVideo :=
  ⟨e.id, e.title, e.thumbnail, e.duration, e.webpage_url⟩

/-- The success body of `/playlist/info`. -/
structure PlaylistBody where
  playlist_title : Option String
  count : Nat
  videos : List PlaylistVideo
deriving DecidableEq, Repr

/-- A `/playlist/info` response body. -/
inductive PlBody where
  | ok (b : PlaylistBody)
  | errDetail (d : String)
deriving DecidableEq, Repr

/-- The detail string of the `HTTPException(400, ...)` the code builds
when the engine result has no `entries` key. -/
def not_a_playlist_detail : String := "Ce n\x27est pas une playlist"

/-- The `try:` block of `playlist_info`: an engine exception propagates;
if the `entries` key is absent an `HTTPException` with status 400 and
the not-a-playlist detail is raised; otherwise the loop skips falsy (null) entries,
projects the rest in order, and returns the body with
`count = len(videos)`. -/
def playlist_try (engine : Except String EngineInfo) : Except PyExc PlaylistBody :=
  match engine with
  | Except.error m => Except.error (PyExc.engineExc m)
  | Except.ok info =>
      match info.entries with
      | none => Except.error (PyExc.httpExc 400 not_a_playlist_detail)
      | some es =>
          let videos := (es.filterMap id).map project_entry
          Except.ok ⟨info.title, videos.length, videos⟩

/-- `playlist_info` from `main.py`: the whole `try:` block is wrapped in
`except Exception as e: raise HTTPException(status_code=500,
detail=str(e))`.  `HTTPException` is a subclass of `Exception`, so the
400 raised inside the `try` is also caught here and re-raised as a 500
whose detail is `str(e)`.  The result is `(HTTP status, body)`. -/
def playlist_info (engine : Except String EngineInfo) : Nat × PlBody :=
  match playlist_try engine with
  | Except.ok b => (200, PlBody.ok b)
  | Except.error e => (500, PlBody.errDetail (strOfExc e))

/-- C1 (code bug): when the engine result has no `entries` collection, the
code intends to answer 400 (`raise HTTPException(status_code=400, ...)`),
but that exception is caught by the blanket
`except Exception` and re-raised as a 500, so the actual response status
is 500 (with the stringified 400 exception as detail), not 400. -/
theorem playlist_info_not_playlist_is_500 :
    playlist_info (Except.ok ⟨some ("Single Video"), none, none, none, [], none⟩) =
      (500, PlBody.errDetail (strOfExc (PyExc.httpExc 400 not_a_playlist_detail))) ∧
    (playlist_info (Except.ok ⟨some ("Single Video"), none, none, none, [], none⟩)).1 ≠ 400 := by
  exact ⟨rfl, by decide⟩

/-- C7: on an engine result that does have a members collection, the
projection succeeds with status 200, keeps exactly the non-null members in
the engine order, and reports `count` as the number of non-null members
included (not the raw engine total). -/
theorem playlist_info_projection (info : EngineInfo)
    (es : List (Option PlaylistEntry)) (h : info.entries = some es) :
    (playlist_info (Except.ok info)).1 = 200 ∧
    (playlist_info (Except.ok info)).2 =
      PlBody.ok ⟨info.title, ((es.filterMap id).map project_entry).length,
        (es.filterMap id).map project_entry⟩ ∧
    ((es.filterMap id).map project_entry).length = es.countP (fun e => e.isSome) := by
  have hcount : ∀ l : List (Option PlaylistEntry),
      (l.filterMap id).length = l.countP (fun e => e.isSome) := by
    intro l
    induction l with
    | nil => rfl
    | cons a l ih =>
        cases a with
        | none => simpa [List.filterMap_cons, List.countP_cons] using ih
        | some v => simpa [List.filterMap_cons, List.countP_cons] using ih
  have hred : playlist_try (Except.ok info) =
      Except.ok ⟨info.title, ((es.filterMap id).map project_entry).length,
        (es.filterMap id).map project_entry⟩ := by
    simp only [playlist_try, h]
  refine ⟨?_, ?_, by simpa using hcount es⟩
  · simp [playlist_info, hred]
  · simp [playlist_info, hred]

/-- A concrete three-member engine entries list whose middle member is
null/unavailable. -/
def samplePlaylistEntries : List (Option PlaylistEntry) :=
  [some ⟨some ("a"), some ("A"), none, some 10, some ("ua")⟩, none,
   some ⟨some ("b"), some ("B"), none, some 20, some ("ub")⟩]

/-- A concrete engine playlist result around `samplePlaylistEntries`. -/
def samplePlaylistInfo : EngineInfo :=
  ⟨some ("My Playlist"), none, none, none, [], some samplePlaylistEntries⟩

/-- Witness for C7: on the three-member engine list with a null middle
member, two members are projected and `count = 2` while the engine total
is 3. -/
theorem playlist_info_projection_witness :
    ((playlist_info (Except.ok samplePlaylistInfo)).1 = 200 ∧
     (playlist_info (Except.ok samplePlaylistInfo)).2 =
       PlBody.ok ⟨samplePlaylistInfo.title,
         ((samplePlaylistEntries.filterMap id).map project_entry).length,
         (samplePlaylistEntries.filterMap id).map project_entry⟩ ∧
     ((samplePlaylistEntries.filterMap id).map project_entry).length =
       samplePlaylistEntries.countP (fun e => e.isSome)) ∧
    ((samplePlaylistEntries.filterMap id).map project_entry).length = 2 ∧
    samplePlaylistEntries.length = 3 :=
  ⟨playlist_info_projection samplePlaylistInfo samplePlaylistEntries rfl,
   by decide, by decide⟩

/-! ## `GET /download` (`download_video`) -/

/-- The metadata-probe result of the first engine call (only the key the
code reads). -/
structure ProbeInfo where
  title : Option String
deriving DecidableEq, Repr

/-- `title.replace("/", "-").replace("\\", "-")` from `main.py`. -/
def sanitize_title (t : String) : String :=
  (t.replace ("/") ("-")).replace ("\\") ("-")

/-- Detail of `HTTPException(401, ...)` in `verify_api_key`. -/
def invalid_key_detail : String := "Clé API invalide"

/-- Detail of `HTTPException(429, ...)` in `rate_limit`. -/
def rate_limited_detail : String := "Trop de requêtes, réessayez plus tard."

/-- Detail of `HTTPException(500, ...)` when the downloaded artifact
cannot be located. -/
def download_failed_detail : String := "Téléchargement échoué"

/-- `verify_api_key` from `main.py`: with no configured key (or the empty
string, which is falsy in `if API_KEY:`) every request passes; otherwise
the request passes exactly when the presented `X-API-KEY` header equals
the configured key, and fails with status 401 otherwise.  `none` for the
header models a request without the header (`headers.get` returns
`None`). -/
def verify_api_key (apiKey : Option String) (header : Option String) : Option Nat :=
  match apiKey with
  | none => none
  | some s =>
      if s = "" then none
      else if header = some s then none else some 401

/-- `next((os.path.join("/tmp", f) for f in os.listdir("/tmp") if
f.startswith(uid)), None)`: the first directory entry whose name starts
with the identifier, joined under `/tmp`. -/
def locate_artifact (listing : List String) (uid : String) : Option String :=
  (listing.find? (fun f => f.startsWith uid)).map (fun f => ("/tmp/") ++ f)

/-- The environment of one `/download` request: configuration, headers,
the outcomes of the two engine calls, and the transient directory state
after the download call. -/
structure DlEnv where
  apiKey : Option String
  header : Option String
  probe : Except String ProbeInfo
  dlRun : Except String Unit
  listing : List String
  uid : String
  fsExisting : Finset String

/-- The `try:` block of `download_video`: probe the metadata (an engine
exception propagates), build the display filename, run the download (an
engine exception propagates), then locate the artifact by identifier
prefix; if none is found or the found path does not exist, raise
`HTTPException(500, "Téléchargement échoué")`.  On success, return the
display filename and the artifact path handed to `StreamingResponse`. -/
def download_try (env : DlEnv) : Except PyExc (String × String) :=
  match env.probe with
  | Except.error m => Except.error (PyExc.engineExc m)
  | Except.ok info =>
      let filename := sanitize_title (info.title.getD ("video")) ++ (".mp4")
      match env.dlRun with
      | Except.error m => Except.error (PyExc.engineExc m)
      | Except.ok _ =>
          match locate_artifact env.listing env.uid with
          | none => Except.error (PyExc.httpExc 500 download_failed_detail)
          | some file_path =>
              if file_path ∈ env.fsExisting then Except.ok (filename, file_path)
              else Except.error (PyExc.httpExc 500 download_failed_detail)

/-- Outcome of a `/download` request: an error response, or a streaming
response with its `Content-Disposition` filename and artifact path. -/
inductive DlOutcome where
  | errResp (status : Nat) (detail : String)
  | streamResp (filename : String) (path : String)
deriving DecidableEq, Repr

/-- `download_video` from `main.py`, threaded with the stored
timestamp list of one identity: the `verify_api_key` dependency runs first (a 401 leaves
the rate-limit state untouched), then `rate_limit(request)` (before the
`try:` block, so its 429 is not converted to 500), then the `try:` block;
any exception inside the `try` is caught and surfaced as a 500 whose
detail is `str(e)`. -/
def download_video (env : DlEnv) (ts : List ℚ) (now : ℚ) : DlOutcome × List ℚ :=
  match verify_api_key env.apiKey env.header with
  | some code => (DlOutcome.errResp code invalid_key_detail, ts)
  | none =>
      match rate_limit ts now with
      | (RLDecision.rejected429, ts2) => (DlOutcome.errResp 429 rate_limited_detail, ts2)
      | (RLDecision.admitted, ts2) =>
          match download_try env with
          | Except.ok fp => (DlOutcome.streamResp fp.1 fp.2, ts2)
          | Except.error e => (DlOutcome.errResp 500 (strOfExc e), ts2)

/-- C5: with no configured secret the identity check passes; with a
configured (non-empty) secret the check yields 401 exactly when the
presented header differs from the secret; and a 401-rejected request is
answered before rate limiting, leaving the stored timestamp
list of the identity unchanged (no quota recorded). -/
theorem verify_api_key_before_quota (s : String) (hs : s ≠ "")
    (hdr : Option String) (probe : Except String ProbeInfo)
    (dl : Except String Unit) (listing : List String) (uid : String)
    (fsE : Finset String) (ts : List ℚ) (now : ℚ) :
    verify_api_key none hdr = none ∧
    (verify_api_key (some s) hdr = some 401 ↔ hdr ≠ some s) ∧
    (verify_api_key (some s) hdr = none ↔ hdr = some s) ∧
    (hdr ≠ some s →
      download_video ⟨some s, hdr, probe, dl, listing, uid, fsE⟩ ts now =
        (DlOutcome.errResp 401 invalid_key_detail, ts)) := by
  have hv : verify_api_key (some s) hdr = if hdr = some s then none else some 401 := by
    simp only [verify_api_key]
    rw [if_neg hs]
  refine ⟨rfl, ?_, ?_, ?_⟩
  · rw [hv]
    by_cases h : hdr = some s <;> simp [h]
  · rw [hv]
    by_cases h : hdr = some s <;> simp [h]
  · intro h
    have h401 : verify_api_key (some s) hdr = some 401 := by rw [hv, if_neg h]
    simp [download_video, h401]

/-- Witness for C5 at the example of the spec: secret `"s3cr3t"`, request
without an `X-API-KEY` header. -/
theorem verify_api_key_before_quota_witness :
    verify_api_key none none = none ∧
    (verify_api_key (some ("s3cr3t")) none = some 401 ↔ none ≠ some ("s3cr3t")) ∧
    (verify_api_key (some ("s3cr3t")) none = none ↔ none = some ("s3cr3t")) ∧
    (none ≠ some ("s3cr3t") →
      download_video ⟨some ("s3cr3t"), none, Except.ok ⟨none⟩, Except.ok (), [], "", ∅⟩ [] 0 =
        (DlOutcome.errResp 401 invalid_key_detail, [])) :=
  verify_api_key_before_quota ("s3cr3t") (by decide) none (Except.ok ⟨none⟩)
    (Except.ok ()) [] "" ∅ [] 0

lemma find_first_match {α : Type} (p : α → Bool) :
    ∀ (pre : List α) (f : α) (post : List α),
      (∀ g ∈ pre, p g = false) → p f = true →
      (pre ++ f :: post).find? p = some f := by
  intro pre
  induction pre with
  | nil =>
      intro f post _ hf
      simpa [List.find?_cons] using (by simp [hf] : (f :: post).find? p = some f)
  | cons a l ih =>
      intro f post hpre hf
      have ha : p a = false := hpre a (by simp)
      rw [List.cons_append, List.find?_cons_of_neg _ (by simp [ha])]
      exact ih f post (fun g hg => hpre g (by simp [hg])) hf

/-- C6: in an admitted `/download` request whose two engine calls
succeed, the artifact is the first transient-directory entry whose name
starts with the generated identifier; if no entry matches, or the
selected path does not exist, the response is a 500 download-failure
(via the catch-all, which preserves status 500); when the selected path
exists, exactly that path is streamed. -/
theorem download_locate_or_500 (hdr : Option String) (pinfo : ProbeInfo)
    (listing : List String) (uid : String) (fsE : Finset String)
    (ts : List ℚ) (now : ℚ)
    (hadm : (pruneWindow ts now).length < RATE_LIMIT) :
    (listing.find? (fun g => g.startsWith uid) = none →
      (download_video ⟨none, hdr, Except.ok pinfo, Except.ok (), listing, uid, fsE⟩ ts now).1 =
        DlOutcome.errResp 500 (strOfExc (PyExc.httpExc 500 download_failed_detail))) ∧
    (∀ f, listing.find? (fun g => g.startsWith uid) = some f →
      (("/tmp/") ++ f) ∉ fsE →
      (download_video ⟨none, hdr, Except.ok pinfo, Except.ok (), listing, uid, fsE⟩ ts now).1 =
        DlOutcome.errResp 500 (strOfExc (PyExc.httpExc 500 download_failed_detail))) ∧
    (∀ f, listing.find? (fun g => g.startsWith uid) = some f →
      (("/tmp/") ++ f) ∈ fsE →
      (download_video ⟨none, hdr, Except.ok pinfo, Except.ok (), listing, uid, fsE⟩ ts now).1 =
        DlOutcome.streamResp (sanitize_title (pinfo.title.getD ("video")) ++ (".mp4"))
          (("/tmp/") ++ f)) ∧
    (∀ pre f post, listing = pre ++ f :: post →
      (∀ g ∈ pre, g.startsWith uid = false) → f.startsWith uid = true →
      listing.find? (fun g => g.startsWith uid) = some f) := by
  have hrl : rate_limit ts now = (RLDecision.admitted, pruneWindow ts now ++ [now]) := by
    unfold rate_limit
    simp [Nat.not_le.mpr hadm]
  refine ⟨?_, ?_, ?_, ?_⟩
  · intro hfind
    have htry : download_try ⟨none, hdr, Except.ok pinfo, Except.ok (), listing, uid, fsE⟩ =
        Except.error (PyExc.httpExc 500 download_failed_detail) := by
      simp [download_try, locate_artifact, hfind]
    simp [download_video, verify_api_key, hrl, htry]
  · intro f hfind hnot
    have htry : download_try ⟨none, hdr, Except.ok pinfo, Except.ok (), listing, uid, fsE⟩ =
        Except.error (PyExc.httpExc 500 download_failed_detail) := by
      simp [download_try, locate_artifact, hfind, hnot]
    simp [download_video, verify_api_key, hrl, htry]
  · intro f hfind hmem
    have htry : download_try ⟨none, hdr, Except.ok pinfo, Except.ok (), listing, uid, fsE⟩ =
        Except.ok (sanitize_title (pinfo.title.getD ("video")) ++ (".mp4"), ("/tmp/") ++ f) := by
      simp [download_try, locate_artifact, hfind, hmem]
    simp [download_video, verify_api_key, hrl, htry]
  · intro pre f post hlist hpre hf
    rw [hlist]
    exact find_first_match _ pre f post hpre hf

/-- Witness for C6 at the example of the spec: probe succeeds with title
`"My Video"`, the download step produces no file with the identifier
prefix (`listing` holds only an unrelated entry, the filesystem is
empty). -/
theorem download_locate_or_500_witness :
    (["other.txt"].find? (fun g => g.startsWith ("ab12cd34")) = none →
      (download_video ⟨none, none, Except.ok ⟨some ("My Video")⟩, Except.ok (),
        ["other.txt"], "ab12cd34", ∅⟩ [] 0).1 =
        DlOutcome.errResp 500 (strOfExc (PyExc.httpExc 500 download_failed_detail))) ∧
    (∀ f, ["other.txt"].find? (fun g => g.startsWith ("ab12cd34")) = some f →
      (("/tmp/") ++ f) ∉ (∅ : Finset String) →
      (download_video ⟨none, none, Except.ok ⟨some ("My Video")⟩, Except.ok (),
        ["other.txt"], "ab12cd34", ∅⟩ [] 0).1 =
        DlOutcome.errResp 500 (strOfExc (PyExc.httpExc 500 download_failed_detail))) ∧
    (∀ f, ["other.txt"].find? (fun g => g.startsWith ("ab12cd34")) = some f →
      (("/tmp/") ++ f) ∈ (∅ : Finset String) →
      (download_video ⟨none, none, Except.ok ⟨some ("My Video")⟩, Except.ok (),
        ["other.txt"], "ab12cd34", ∅⟩ [] 0).1 =
        DlOutcome.streamResp
          (sanitize_title ((some ("My Video") : Option String).getD ("video")) ++ (".mp4"))
          (("/tmp/") ++ f)) ∧
    (∀ pre f post, ["other.txt"] = pre ++ f :: post →
      (∀ g ∈ pre, g.startsWith ("ab12cd34") = false) → f.startsWith ("ab12cd34") = true →
      ["other.txt"].find? (fun g => g.startsWith ("ab12cd34")) = some f) :=
  download_locate_or_500 none ⟨some ("My Video")⟩ ["other.txt"] ("ab12cd34") ∅ [] 0
    (by decide)

/-! ## The streaming responder (`stream_file`) -/

/-- One step of the body of the `stream_file` generator: yielding a chunk of
the opened file, or the `os.remove(file_path)` call. -/
inductive StreamStep where
  | yieldChunk (i : Nat)
  | removeFile (path : String)
deriving DecidableEq, Repr

/-- The `stream_file` generator from `main.py` as the sequence of steps
its body executes in order when driven to completion: `with open(...) as
f: yield from f` yields each chunk, and only after the final chunk has
been consumed does control reach `os.remove(file_path)`.  The remove is
sequenced *after* the `with` block, not in a `finally`/`with` scope, so
it is not tied to the exit of the generator. -/
def stream_file (chunks : List Nat) (path : String) : List StreamStep :=
  (chunks.map StreamStep.yieldChunk) ++ [StreamStep.removeFile path]

/-- Effect of one generator step on the set of files on disk. -/
def applyStep (fs : Finset String) : StreamStep → Finset String
  | StreamStep.yieldChunk _ => fs
  | StreamStep.removeFile p => fs.erase p

/-- Disk state after executing a sequence of generator steps. -/
def run_steps (fs : Finset String) (steps : List StreamStep) : Finset String :=
  steps.foldl applyStep fs

/-- Disk state when the response stream is fully consumed: every step of
the generator runs. -/
def stream_consumed (chunks : List Nat) (path : String) (fs : Finset String) :
    Finset String :=
  run_steps fs (stream_file chunks path)

/-- Disk state when the transfer is interrupted (client disconnect or
downstream write failure) after `k` steps: the generator is closed early
and only its first `k` steps have run.  (Closing the generator still
exits the `with open` block, but no further statement of the body runs.) -/
def stream_interrupted (chunks : List Nat) (path : String) (fs : Finset String)
    (k : Nat) : Finset String :=
  run_steps fs ((stream_file chunks path).take k)

/-- C2 counterexample: with a three-chunk artifact on disk, a transfer
interrupted after the first chunk leaves the artifact file on disk — the
deletion does not occur on this exit path, refuting deletion on *every*
exit path. -/
theorem stream_interrupt_leaks_file :
    ("/tmp/a1b2c3d4.mp4") ∈
      stream_interrupted [0, 1, 2] ("/tmp/a1b2c3d4.mp4") {("/tmp/a1b2c3d4.mp4")} 1 ∧
    1 < (stream_file [0, 1, 2] ("/tmp/a1b2c3d4.mp4")).length := by
  constructor
  · simp [stream_interrupted, run_steps, stream_file, applyStep]
  · simp [stream_file]

lemma run_steps_yields (fs : Finset String) (l : List Nat) :
    run_steps fs (l.map StreamStep.yieldChunk) = fs := by
  induction l generalizing fs with
  | nil => rfl
  | cons a l ih => simpa [run_steps, List.foldl_cons, applyStep] using ih fs

/-- C2 amended: the artifact file is deleted after the stream is fully
consumed, but on an interrupted transfer (the generator closed after `k ≤
|chunks|` steps, i.e. before the post-loop `os.remove` runs) the file
remains on disk: cleanup happens only on the success path. -/
theorem stream_cleanup_amended (chunks : List Nat) (path : String)
    (fs : Finset String) (k : Nat) (hk : k ≤ chunks.length) :
    path ∉ stream_consumed chunks path fs ∧
    (path ∈ fs → path ∈ stream_interrupted chunks path fs k) := by
  constructor
  · unfold stream_consumed stream_file
    rw [show run_steps fs ((chunks.map StreamStep.yieldChunk) ++ [StreamStep.removeFile path]) =
        run_steps (run_steps fs (chunks.map StreamStep.yieldChunk)) [StreamStep.removeFile path]
      from List.foldl_append _ _ _ _]
    rw [run_steps_yields]
    simp [run_steps, applyStep]
  · intro hmem
    unfold stream_interrupted stream_file
    rw [List.take_append_of_le_length (by simpa using hk)]
    rw [← List.map_take, run_steps_yields]
    exact hmem

/-- Witness for the amended C2 statement at the input of the counterexample. -/
theorem stream_cleanup_amended_witness :
    ("/tmp/a1b2c3d4.mp4") ∉
      stream_consumed [0, 1, 2] ("/tmp/a1b2c3d4.mp4") {("/tmp/a1b2c3d4.mp4")} ∧
    (("/tmp/a1b2c3d4.mp4") ∈ ({("/tmp/a1b2c3d4.mp4")} : Finset String) →
      ("/tmp/a1b2c3d4.mp4") ∈
        stream_interrupted [0, 1, 2] ("/tmp/a1b2c3d4.mp4") {("/tmp/a1b2c3d4.mp4")} 1) :=
  stream_cleanup_amended [0, 1, 2] ("/tmp/a1b2c3d4.mp4") {("/tmp/a1b2c3d4.mp4")} 1
    (by decide)

end ApiApp
